import Mathlib

/-!
Verification development for the connection-detection and notification
subsystem of the ultimate-kg repository (package `agentic_graphrag`).

The definitions below are a shallow embedding of
`agentic_graphrag/agents/connection_detector.py` and
`agentic_graphrag/agents/notification_manager.py` (data model from
`agentic_graphrag/agents/schemas.py`):

* Python floats are modelled as rationals (`ℚ`); all score arithmetic in the
  source uses small decimal constants, and no claim depends on binary
  floating-point rounding.
* Python sets of strings are modelled as deduplicated lists; Python set
  iteration order is unspecified, so the embedding fixes one order
  (`List.dedup`, which keeps the last occurrence of each element).
* Effects are made explicit: the wall clock enters as the
  `processing_time` / timestamp parameters, `hashlib.md5` and the builtin
  `hash` enter as function parameters (the theorems hold for every choice),
  and a Python exception inside a modelled operation appears as an
  `Except.error` or a `Bool` failure flag at the spot where the source
  catches it.
* Mutation of `self` is explicit state passing: each stateful method takes
  and returns its state record.
-/

namespace UltimateKG

/-! ## Data model (schemas.py) -/

/-- ProcessingStatus enum of schemas.py. The source value `PARTIAL` is named
`partialResult` here. -/
inductive ProcessingStatus where
  | pending
  | in_progress
  | completed
  | failed
  | partialResult
deriving DecidableEq

/-- ExtractedFact of schemas.py. `fact_type` holds the FactType enum value
string (for example "temporal"); `source_context` and `metadata` are not
consulted by the detector and are omitted. -/
structure ExtractedFact where
  fact : String
  confidence : ℚ
  fact_type : String
  entities : List String
deriving DecidableEq

/-- ConnectionScore of schemas.py. -/
structure ConnectionScore where
  score : ℚ
  confidence : ℚ
  reasoning : String
  connection_type : String
deriving DecidableEq

/-- Values stored in a DetectedConnection metadata dict by
connection_detector.py. -/
inductive MetaVal where
  | str : String → MetaVal
  | strList : List String → MetaVal
  | strListList : List (List String) → MetaVal
deriving DecidableEq

/-- DetectedConnection of schemas.py. -/
structure DetectedConnection where
  source_fact : String
  target_fact : String
  relationship : String
  score : ConnectionScore
  evidence : List String
  metadata : List (String × MetaVal)
deriving DecidableEq

/-- ConnectionDetectionOutput of schemas.py (the DetectionResult of the
specification). -/
structure ConnectionDetectionOutput where
  connections : List DetectedConnection
  total_connections : Nat
  high_relevance_connections : List DetectedConnection
  threshold_used : ℚ
  processing_time : ℚ
  status : ProcessingStatus
deriving DecidableEq

/-! ## Relation scorer (`_simulate_connection_detection`) -/

/-- Python `", ".join(xs)`. -/
def pyJoin (sep : String) (xs : List String) : String :=
  String.intercalate sep xs

/-- Rendering of a Python set of strings as in an f-string, e.g.
`\x7b'Alice'\x7d` (element order of the real set is unspecified; the
embedding renders the canonical order). -/
def pySetRepr (xs : List String) : String :=
  "\x7b" ++ pyJoin ", " (xs.map (fun s => "\x27" ++ s ++ "\x27")) ++ "\x7d"

/-- `set(fact1.entities) & set(fact2.entities)` as a deduplicated list
(one entry per distinct shared entity). -/
def sharedEntities (fact1 fact2 : ExtractedFact) : List String :=
  fact1.entities.dedup.filter (fun e => decide (e ∈ fact2.entities))

/-- The entity-overlap strategy applied to one ordered pair (`fact1` at a
smaller index than `fact2`): lines 245-269 of connection_detector.py. Returns
`none` when the shared-entity set is empty. -/
def entityOverlapConnection (fact1 fact2 : ExtractedFact) : Option DetectedConnection :=
  let common_entities := sharedEntities fact1 fact2
  if common_entities = [] then none
  else
    let score_value := min (0.7 + (common_entities.length : ℚ) * 0.1) 1.0
    some
      { source_fact := fact1.fact
        target_fact := fact2.fact
        relationship := "Share common entities: " ++ pyJoin ", " common_entities
        score :=
          { score := score_value
            confidence := 0.85
            reasoning := "Facts share entities " ++ pySetRepr common_entities ++
              " which indicates a relationship"
            connection_type := "factual" }
        evidence := ["Both facts mention: " ++ pyJoin ", " common_entities]
        metadata :=
          [("common_entities", MetaVal.strList common_entities),
           ("detection_method", MetaVal.str "entity_overlap")] }

/-- All ordered pairs `(xs[i], xs[j])` with `i < j`, in the iteration order
of the nested loops `for i, fact1 in enumerate(new_facts); for j, fact2 in
enumerate(new_facts[i+1:], i+1)`. -/
def pairsOf {α : Type} : List α → List (α × α)
  | [] => []
  | x :: rest => rest.map (fun y => (x, y)) ++ pairsOf rest

/-- The entity-overlap phase of `_simulate_connection_detection`: one
connection appended per pair with a non-empty shared-entity set, in loop
order. -/
def entityOverlapPhase (new_facts : List ExtractedFact) : List DetectedConnection :=
  (pairsOf new_facts).filterMap (fun p => entityOverlapConnection p.1 p.2)

/-- Splits a character list into maximal non-whitespace runs, dropping empty
pieces: the behaviour of Python `str.split()` with no argument. -/
def wordsAux : List Char → List Char → List String
  | [], acc => if acc.isEmpty then [] else [String.mk acc.reverse]
  | c :: rest, acc =>
    if c.isWhitespace then
      if acc.isEmpty then wordsAux rest []
      else String.mk acc.reverse :: wordsAux rest []
    else wordsAux rest (c :: acc)

/-- Python `text.lower().split()`. -/
def pyWords (text : String) : List String :=
  wordsAux (text.toList.map Char.toLower) []

/-- The stop-word set of `_simulate_connection_detection`. -/
def stop_words : List String :=
  ["the", "a", "an", "and", "or", "but", "in", "on", "at", "to", "for",
   "of", "with", "by", "is", "are", "was", "were"]

/-- `meaningful_words = (fact_words & knowledge_words) - stop_words`, as a
deduplicated list (one entry per distinct meaningful shared token). -/
def meaningfulShared (fact_text existing_knowledge : String) : List String :=
  let fact_words := (pyWords fact_text).dedup
  let knowledge_words := pyWords existing_knowledge
  (fact_words.filter (fun w => decide (w ∈ knowledge_words))).filter
    (fun w => decide (w ∉ stop_words))

/-- The lexical-similarity strategy applied to one fact against the corpus:
lines 271-302 of connection_detector.py. Returns `none` when fewer than two
meaningful tokens are shared. -/
def lexicalConnection (fact : ExtractedFact) (existing_knowledge : String) :
    Option DetectedConnection :=
  let meaningful_words := meaningfulShared fact.fact existing_knowledge
  if 2 ≤ meaningful_words.length then
    let score_value := min (0.5 + (meaningful_words.length : ℚ) * 0.05) 0.9
    some
      { source_fact := fact.fact
        target_fact := "Existing knowledge in the knowledge base"
        relationship := "Semantic similarity through shared concepts: " ++
          pyJoin ", " (meaningful_words.take 3)
        score :=
          { score := score_value
            confidence := 0.70
            reasoning := "Shares " ++ toString meaningful_words.length ++
              " meaningful concepts with existing knowledge"
            connection_type := "semantic" }
        evidence := ["Shared concepts: " ++ pyJoin ", " (meaningful_words.take 5)]
        metadata :=
          [("shared_concepts", MetaVal.strList meaningful_words),
           ("detection_method", MetaVal.str "semantic_similarity")] }
  else none

/-- The lexical phase of `_simulate_connection_detection`: one connection
appended per qualifying fact, in fact order. -/
def lexicalPhase (new_facts : List ExtractedFact) (existing_knowledge : String) :
    List DetectedConnection :=
  new_facts.filterMap (fun fact => lexicalConnection fact existing_knowledge)

/-- The temporal phase of `_simulate_connection_detection`: if at least two
facts have `fact_type = "temporal"`, exactly one connection between the
first two. -/
def temporalPhase (new_facts : List ExtractedFact) : List DetectedConnection :=
  let temporal_facts := new_facts.filter (fun f => decide (f.fact_type = "temporal"))
  match temporal_facts with
  | fact1 :: fact2 :: _ =>
    [{ source_fact := fact1.fact
       target_fact := fact2.fact
       relationship := "Temporal relationship - events occurring in related time periods"
       score :=
         { score := 0.75
           confidence := 0.80
           reasoning := "Both facts contain temporal information suggesting a timeline relationship"
           connection_type := "temporal" }
       evidence := ["Both facts contain time-related information"]
       metadata :=
         [("detection_method", MetaVal.str "temporal_analysis"),
          ("temporal_entities", MetaVal.strListList (temporal_facts.map (fun f => f.entities)))] }]
  | _ => []

/-- `_simulate_connection_detection`: entity-overlap connections, then
lexical connections, then the temporal connection. The `threshold` argument
is accepted and unused, exactly as in the source. -/
def simulate_connection_detection (new_facts : List ExtractedFact)
    (existing_knowledge : String) (threshold : ℚ) : List DetectedConnection :=
  entityOverlapPhase new_facts ++ lexicalPhase new_facts existing_knowledge ++
    temporalPhase new_facts

/-! ## Detection options, cache key and detector state -/

/-- The `options` dict of `detect_connections` restricted to its recognized
keys; `none` means the key is absent. -/
structure DetectOptions where
  threshold : Option ℚ
  max_connections : Option Nat
  connection_types : Option (List String)
deriving DecidableEq

/-- The empty options dict. -/
def noOptions : DetectOptions :=
  { threshold := none, max_connections := none, connection_types := none }

/-- `json.dumps(options, sort_keys=True)`: the present keys rendered in
sorted key order ("connection_types" < "max_connections" < "threshold").
Numeric rendering is the Lean `toString`; only determinism and key order
matter to the claims. -/
def optionsJson (options : DetectOptions) : String :=
  let parts :=
    (match options.connection_types with
     | none => []
     | some ts =>
       ["\x22connection_types\x22: [" ++
        pyJoin ", " (ts.map (fun t => "\x22" ++ t ++ "\x22")) ++ "]"]) ++
    (match options.max_connections with
     | none => []
     | some m => ["\x22max_connections\x22: " ++ toString m]) ++
    (match options.threshold with
     | none => []
     | some t => ["\x22threshold\x22: " ++ toString t])
  "\x7b" ++ pyJoin ", " parts ++ "\x7d"

/-- The string hashed by `_generate_cache_key`:
`f"{len(new_facts)}-{hash(existing_knowledge)}-{json.dumps(options, sort_keys=True)}"`.
`pyHash` models the Python builtin `hash` on strings. -/
def cacheKeyContent (pyHash : String → Int) (new_facts : List ExtractedFact)
    (existing_knowledge : String) (options : DetectOptions) : String :=
  toString new_facts.length ++ "-" ++ toString (pyHash existing_knowledge) ++
    "-" ++ optionsJson options

/-- `_generate_cache_key`: the md5 hex digest of `cacheKeyContent`. `md5hex`
models `hashlib.md5(...).hexdigest()`; every theorem below holds for an
arbitrary digest function. -/
def generate_cache_key (md5hex : String → String) (pyHash : String → Int)
    (new_facts : List ExtractedFact) (existing_knowledge : String)
    (options : DetectOptions) : String :=
  md5hex (cacheKeyContent pyHash new_facts existing_knowledge options)

/-- The `self.stats` dict of ConnectionDetectionSystem. -/
structure DetectorStats where
  total_detections : Nat
  connections_found : Nat
  high_relevance_connections : Nat
  cached_results : Nat
  average_processing_time : ℚ
  last_detection : Option String
deriving DecidableEq

/-- The mutable state of a ConnectionDetectionSystem instance. -/
structure DetectorState where
  threshold : ℚ
  connection_cache : List (String × ConnectionDetectionOutput)
  stats : DetectorStats
deriving DecidableEq

/-- The state right after `__init__` with the configured default threshold
(config.notifications.threshold defaults to 0.7). -/
def initialDetectorState : DetectorState :=
  { threshold := 0.7
    connection_cache := []
    stats :=
      { total_detections := 0
        connections_found := 0
        high_relevance_connections := 0
        cached_results := 0
        average_processing_time := 0
        last_detection := none } }

/-- Python dict lookup `cache[key]` over the association-list model (the
most recent binding wins). -/
def cacheGet {α : Type} : List (String × α) → String → Option α
  | [], _ => none
  | (k, v) :: rest, key => if key = k then some v else cacheGet rest key

/-- Python dict assignment `cache[key] = v` over the association-list model:
the new binding shadows any earlier one. -/
def cachePut {α : Type} (cache : List (String × α)) (key : String) (v : α) :
    List (String × α) :=
  (key, v) :: cache

/-- `detect_connections` (lines 117-230 of connection_detector.py).
Parameters modelling the environment: `md5hex` and `pyHash` are the hash
functions used by `_generate_cache_key`; `scorer` is the awaited
`_simulate_connection_detection` call, returning `Except.error` when a
Python exception is raised while computing relations (the source wraps the
body in try/except); `processing_time` is the elapsed wall-clock seconds
and `start_iso` the ISO timestamp of `start_time`. Returns the
ConnectionDetectionOutput and the updated state. -/
def detect_connections (md5hex : String → String) (pyHash : String → Int)
    (scorer : List ExtractedFact → String → ℚ → Except String (List DetectedConnection))
    (processing_time : ℚ) (start_iso : String) (st : DetectorState)
    (new_facts : List ExtractedFact) (existing_knowledge : String)
    (options : Option DetectOptions) : ConnectionDetectionOutput × DetectorState :=
  -- self.stats["total_detections"] += 1 happens before the try block
  let stats0 := { st.stats with total_detections := st.stats.total_detections + 1 }
  -- options = options or {}
  let opts := options.getD noOptions
  let threshold := opts.threshold.getD st.threshold
  -- max_connections is resolved here and then only interpolated into the
  -- prompt text; it is never applied to the result below, as in the source
  let _max_connections := opts.max_connections.getD 50
  let cache_key := generate_cache_key md5hex pyHash new_facts existing_knowledge opts
  match cacheGet st.connection_cache cache_key with
  | some cached_result =>
    -- cache hit: increment cached_results and return the cached result
    (cached_result,
     { st with stats := { stats0 with cached_results := stats0.cached_results + 1 } })
  | none =>
    match scorer new_facts existing_knowledge threshold with
    | Except.error _ =>
      -- the except branch: a failed output, no cache write, no further
      -- statistics updates
      ({ connections := []
         total_connections := 0
         high_relevance_connections := []
         threshold_used := threshold
         processing_time := processing_time
         status := ProcessingStatus.failed },
       { st with stats := stats0 })
    | Except.ok connections =>
      let high_relevance_connections :=
        connections.filter (fun conn => decide (threshold ≤ conn.score.score))
      let detection_output : ConnectionDetectionOutput :=
        { connections := connections
          total_connections := connections.length
          high_relevance_connections := high_relevance_connections
          threshold_used := threshold
          processing_time := processing_time
          status := ProcessingStatus.completed }
      let stats1 :=
        { stats0 with
          connections_found := stats0.connections_found + connections.length
          high_relevance_connections :=
            stats0.high_relevance_connections + high_relevance_connections.length
          last_detection := some start_iso }
      let total_time :=
        stats1.average_processing_time * ((stats1.total_detections : ℚ) - 1) +
          processing_time
      let stats2 :=
        { stats1 with
          average_processing_time := total_time / (stats1.total_detections : ℚ) }
      (detection_output,
       { st with
         connection_cache := cachePut st.connection_cache cache_key detection_output
         stats := stats2 })

/-- The scorer actually installed in the source: a successful call to
`_simulate_connection_detection`. -/
def simulateScorer :
    List ExtractedFact → String → ℚ → Except String (List DetectedConnection) :=
  fun new_facts existing_knowledge threshold =>
    Except.ok (simulate_connection_detection new_facts existing_knowledge threshold)

/-! ## File notification channel (notification_manager.py, lines 92-161) -/

/-- Observable state of a FileNotificationChannel instance: the size in
bytes of the log file at `file_path` (`none` when the file does not exist)
and the sizes of the rotated backup files, most recent first. -/
structure FileChannelState where
  fileSize : Option Nat
  backups : List Nat
deriving DecidableEq

/-- The state before any write: the log file does not exist yet. -/
def initialFileChannel : FileChannelState :=
  { fileSize := none, backups := [] }

/-- `_rotate_if_needed`: if the file exists and its size strictly exceeds
`max_size_bytes`, rename it to a timestamped backup. Every exception inside
is caught and logged (`rotateFails = true` models one), leaving the state
unchanged; control always returns to the caller. -/
def rotate_if_needed (max_size_bytes : Nat) (rotateFails : Bool)
    (st : FileChannelState) : FileChannelState :=
  match st.fileSize with
  | some size =>
    if max_size_bytes < size then
      if rotateFails then st
      else { fileSize := none, backups := size :: st.backups }
    else st
  | none => st

/-- `FileNotificationChannel.send_notification`: rotate if needed, then
append one JSON line of `line_bytes` bytes (opening in append mode creates
the file when absent). Returns the boolean result and the new state. -/
def file_send_notification (max_size_bytes line_bytes : Nat) (rotateFails : Bool)
    (st : FileChannelState) : Bool × FileChannelState :=
  let st1 := rotate_if_needed max_size_bytes rotateFails st
  (true, { st1 with fileSize := some (st1.fileSize.getD 0 + line_bytes) })

/-- A sequence of sends with the given line sizes, rotations succeeding. -/
def file_send_seq (max_size_bytes : Nat) (sizes : List Nat)
    (st : FileChannelState) : FileChannelState :=
  match sizes with
  | [] => st
  | n :: rest =>
    file_send_seq max_size_bytes rest (file_send_notification max_size_bytes n false st).2

/-! ## Webhook notification channel (notification_manager.py, lines 163-208) -/

/-- The outcome of one POST attempt: either a response with some HTTP
status code, or an `httpx.RequestError` raised by the client. -/
inductive WebhookOutcome where
  | status : Nat → WebhookOutcome
  | requestError : String → WebhookOutcome
deriving DecidableEq

/-- `response.status_code in [200, 201, 202]`. -/
def isAcceptedStatus (code : Nat) : Bool :=
  code = 200 || code = 201 || code = 202

/-- The retry loop `for attempt in range(self.retries)` of
`WebhookNotificationChannel.send_notification`, from attempt index
`attempt` with `remaining` iterations left. `outcomes i` is what the i-th
POST attempt would produce. Returns (result of `send_notification`, number
of POST attempts made, backoff sleeps in seconds in chronological order).
A non-2xx status logs a warning and continues without sleeping; a
RequestError on the last attempt re-raises, which the outer handler catches
and turns into a `false` return; a RequestError earlier sleeps
`2 ^ attempt` seconds and retries. Falling out of the loop returns
`false`. -/
def webhookLoop (outcomes : Nat → WebhookOutcome) :
    Nat → Nat → Bool × Nat × List Nat
  | _, 0 => (false, 0, [])
  | attempt, remaining + 1 =>
    match outcomes attempt with
    | WebhookOutcome.status code =>
      if isAcceptedStatus code then (true, 1, [])
      else
        let rest := webhookLoop outcomes (attempt + 1) remaining
        (rest.1, rest.2.1 + 1, rest.2.2)
    | WebhookOutcome.requestError _ =>
      if remaining = 0 then (false, 1, [])
      else
        let rest := webhookLoop outcomes (attempt + 1) remaining
        (rest.1, rest.2.1 + 1, (2 ^ attempt) :: rest.2.2)

/-- `WebhookNotificationChannel.send_notification` with the configured
retry count. -/
def webhook_send_notification (outcomes : Nat → WebhookOutcome)
    (retries : Nat) : Bool × Nat × List Nat :=
  webhookLoop outcomes 0 retries

/-! ## Notification manager fan-out (notification_manager.py, lines 347-395) -/

/-- The outcome of awaiting one channel's `send_notification`: the boolean
it returned, or the exception it raised (caught by the manager's
per-channel handler). -/
inductive SendOutcome where
  | ok : Bool → SendOutcome
  | exn : String → SendOutcome
deriving DecidableEq

/-- The `for channel_name, channel in self.channels.items()` loop: every
channel is attempted in order; a `true` return increments `success_count`;
a `false` return or an exception is logged and the loop continues. Returns
(`success_count`, the channel names attempted, in order). -/
def channelFanout : List (String × SendOutcome) → Nat × List String
  | [] => (0, [])
  | (channel_name, outcome) :: rest =>
    let r := channelFanout rest
    match outcome with
    | SendOutcome.ok true => (r.1 + 1, channel_name :: r.2)
    | SendOutcome.ok false => (r.1, channel_name :: r.2)
    | SendOutcome.exn _ => (r.1, channel_name :: r.2)

/-- `NotificationManager.send_notification`: with no channels configured it
logs and returns `false`; otherwise it fans out to every channel and
returns `success_count > 0`. The second component is the list of channels
attempted (a ghost observation; the statistics and history updates touch
neither the return value nor which channels run). -/
def manager_send_notification (channels : List (String × SendOutcome)) :
    Bool × List String :=
  if channels.isEmpty then (false, [])
  else
    let r := channelFanout channels
    (0 < r.1, r.2)

/-! ## Concrete inputs used by witnesses and counterexamples -/

/-- The first fact of the specification scenario in section 8. -/
def factAlice1 : ExtractedFact :=
  { fact := "Alice is an engineer", confidence := 0.9, fact_type := "person",
    entities := ["Alice"] }

/-- The second fact of the specification scenario in section 8. -/
def factAlice2 : ExtractedFact :=
  { fact := "Alice works at Acme", confidence := 0.9, fact_type := "relationship",
    entities := ["Alice", "Acme"] }

/-- A fact with the same list length profile as `factAlice1` but different
content (text and entities). -/
def factBob : ExtractedFact :=
  { fact := "Bob retired", confidence := 0.8, fact_type := "person",
    entities := ["Bob"] }

/-- A fact with no shared token with the small corpora used below. -/
def factLex : ExtractedFact :=
  { fact := "alpha beta gamma", confidence := 0.9, fact_type := "concept",
    entities := [] }

/-- A fact tagged with the single entity "E"; eleven of these make 55
unordered pairs, all with a shared entity. -/
def sharedEntityFact (t : String) : ExtractedFact :=
  { fact := t, confidence := 0.9, fact_type := "concept", entities := ["E"] }

/-- Eleven facts that all share the entity "E". -/
def elevenSharedFacts : List ExtractedFact :=
  [sharedEntityFact "fact 1", sharedEntityFact "fact 2", sharedEntityFact "fact 3",
   sharedEntityFact "fact 4", sharedEntityFact "fact 5", sharedEntityFact "fact 6",
   sharedEntityFact "fact 7", sharedEntityFact "fact 8", sharedEntityFact "fact 9",
   sharedEntityFact "fact 10", sharedEntityFact "fact 11"]

/-- A scorer whose awaited call raises: models a Python exception thrown
while computing relations. -/
def failScorer :
    List ExtractedFact → String → ℚ → Except String (List DetectedConnection) :=
  fun _ _ _ => Except.error "simulated failure"

/-- A first detection call on a fresh system (identity digest, constant
string hash, trivial clock): populates one cache entry. -/
def firstDetectCall : ConnectionDetectionOutput × DetectorState :=
  detect_connections id (fun _ => 0) simulateScorer 0 "t1" initialDetectorState
    [factAlice1] "c" none

/-- Webhook attempt outcomes: network errors on attempts 0 and 1, then a
200 response on attempt 2. -/
def outcomesFailTwice : Nat → WebhookOutcome := fun n =>
  if n < 2 then WebhookOutcome.requestError "connection refused"
  else WebhookOutcome.status 200

/-- Webhook attempt outcomes: every attempt raises a network error. -/
def outcomesAllFail : Nat → WebhookOutcome :=
  fun _ => WebhookOutcome.requestError "connection refused"

/-- Webhook attempt outcomes: every attempt completes with HTTP 500. -/
def outcomesAll500 : Nat → WebhookOutcome :=
  fun _ => WebhookOutcome.status 500

/-- Webhook attempt outcomes: network errors on attempts 0 and 1, then an
HTTP 204 No Content response (a 2xx status outside the accepted list
[200, 201, 202]) on attempt 2. -/
def outcomes204 : Nat → WebhookOutcome := fun n =>
  if n < 2 then WebhookOutcome.requestError "connection refused"
  else WebhookOutcome.status 204

/-! ## Helper lemmas -/

/-- One unfolding step of the webhook retry loop. -/
lemma webhookLoop_succ (outcomes : Nat → WebhookOutcome) (attempt r : Nat) :
    webhookLoop outcomes attempt (r + 1) =
      match outcomes attempt with
      | WebhookOutcome.status code =>
        if isAcceptedStatus code then (true, 1, [])
        else
          let rest := webhookLoop outcomes (attempt + 1) r
          (rest.1, rest.2.1 + 1, rest.2.2)
      | WebhookOutcome.requestError _ =>
        if r = 0 then (false, 1, [])
        else
          let rest := webhookLoop outcomes (attempt + 1) r
          (rest.1, rest.2.1 + 1, (2 ^ attempt) :: rest.2.2) := rfl

/-- When every remaining attempt yields a non-2xx response, the loop runs
all remaining attempts, sleeps never, and returns false. -/
lemma webhookLoop_all_non2xx (outcomes : Nat → WebhookOutcome) :
    ∀ (remaining attempt : Nat),
      (∀ i, i < remaining → ∃ code, outcomes (attempt + i) = WebhookOutcome.status code ∧
        isAcceptedStatus code = false) →
      webhookLoop outcomes attempt remaining = (false, remaining, []) := by
  intro remaining
  induction remaining with
  | zero => intro attempt _; rfl
  | succ r ih =>
    intro attempt h
    obtain ⟨code, hc, hacc⟩ := h 0 (Nat.succ_pos r)
    rw [Nat.add_zero] at hc
    have hrest : webhookLoop outcomes (attempt + 1) r = (false, r, []) := by
      apply ih
      intro i hi
      have hx := h (i + 1) (Nat.succ_lt_succ hi)
      have heq : attempt + (i + 1) = (attempt + 1) + i := by omega
      rw [heq] at hx
      exact hx
    rw [webhookLoop_succ, hc]
    dsimp only
    rw [if_neg (by simp [hacc]), hrest]

/-- While the running file size before each write stays at or below the
ceiling, no rotation happens and the size accumulates. -/
lemma file_send_seq_no_rotation (C : Nat) :
    ∀ (ws : List Nat) (sz : Nat) (bk : List Nat),
      (∀ i, i < ws.length → sz + (ws.take i).sum ≤ C) →
      file_send_seq C ws { fileSize := some sz, backups := bk } =
        { fileSize := some (sz + ws.sum), backups := bk } := by
  intro ws
  induction ws with
  | nil => intro sz bk _; simp [file_send_seq]
  | cons w rest ih =>
    intro sz bk h
    have h0 : sz ≤ C := by
      have := h 0 (by simp)
      simpa using this
    have hrot : rotate_if_needed C false { fileSize := some sz, backups := bk } =
        { fileSize := some sz, backups := bk } := by
      simp [rotate_if_needed, Nat.not_lt.mpr h0]
    have hrec : ∀ i, i < rest.length → (sz + w) + (rest.take i).sum ≤ C := by
      intro i hi
      have := h (i + 1) (by simpa using Nat.succ_lt_succ hi)
      simpa [List.take_succ_cons, Nat.add_assoc] using this
    calc file_send_seq C (w :: rest) { fileSize := some sz, backups := bk }
        = file_send_seq C rest { fileSize := some (sz + w), backups := bk } := by
          simp [file_send_seq, file_send_notification, hrot]
      _ = { fileSize := some ((sz + w) + rest.sum), backups := bk } := ih (sz + w) bk hrec
      _ = { fileSize := some (sz + (w :: rest).sum), backups := bk } := by
          simp [List.sum_cons, Nat.add_assoc]

/-- The fan-out loop attempts every channel, in order. -/
lemma channelFanout_names (cs : List (String × SendOutcome)) :
    (channelFanout cs).2 = cs.map Prod.fst := by
  induction cs with
  | nil => rfl
  | cons c rest ih =>
    obtain ⟨channel_name, outcome⟩ := c
    cases outcome with
    | ok b => cases b <;> simp [channelFanout, ih]
    | exn m => simp [channelFanout, ih]

/-- The fan-out success count is positive exactly when some channel
returned true. -/
lemma channelFanout_pos_iff (cs : List (String × SendOutcome)) :
    0 < (channelFanout cs).1 ↔ ∃ c ∈ cs, c.2 = SendOutcome.ok true := by
  induction cs with
  | nil => simp [channelFanout]
  | cons c rest ih =>
    obtain ⟨channel_name, outcome⟩ := c
    cases outcome with
    | ok b =>
      cases b
      · simp [channelFanout, ih]
      · simp [channelFanout]
    | exn m => simp [channelFanout, ih]

/-- The length of a filterMap is the number of elements on which the
function is defined. -/
lemma length_filterMap_eq_length_filter {α β : Type} (f : α → Option β) (l : List α) :
    (l.filterMap f).length = (l.filter (fun a => (f a).isSome)).length := by
  induction l with
  | nil => rfl
  | cons a rest ih =>
    cases h : f a <;> simp [List.filterMap_cons, List.filter_cons, h, ih]

/-- The entity-overlap strategy fires exactly on pairs with a non-empty
shared-entity set. -/
lemma entityOverlapConnection_isSome (f1 f2 : ExtractedFact) :
    (entityOverlapConnection f1 f2).isSome = !(sharedEntities f1 f2).isEmpty := by
  unfold entityOverlapConnection
  by_cases h : sharedEntities f1 f2 = [] <;> simp [h]

/-- The lexical strategy fires exactly on facts sharing at least two
meaningful tokens with the corpus. -/
lemma lexicalConnection_isSome (fact : ExtractedFact) (existing_knowledge : String) :
    (lexicalConnection fact existing_knowledge).isSome =
      decide (2 ≤ (meaningfulShared fact.fact existing_knowledge).length) := by
  unfold lexicalConnection
  by_cases h : 2 ≤ (meaningfulShared fact.fact existing_knowledge).length <;> simp [h]

/-! ## Claims -/

/-- C1: contrary to the claim, the cache fingerprint is not a function of
fact content. `_generate_cache_key` hashes only the fact count, the corpus
hash, and the options JSON, so two single-fact calls whose facts differ in
text, entities and type produce the same cache key (for every digest and
string-hash function), and the second call returns the first call's cached
DetectionResult. -/
theorem C1_cache_key_ignores_fact_content :
    ∀ (md5hex : String → String) (pyHash : String → Int),
      (factAlice1.fact == factBob.fact) = false ∧
      generate_cache_key md5hex pyHash [factAlice1] "shared corpus" noOptions =
        generate_cache_key md5hex pyHash [factBob] "shared corpus" noOptions ∧
      (detect_connections md5hex pyHash simulateScorer 0 "t2"
        (detect_connections md5hex pyHash simulateScorer 0 "t1" initialDetectorState
          [factAlice1] "shared corpus" none).2
        [factBob] "shared corpus" none).1 =
      (detect_connections md5hex pyHash simulateScorer 0 "t1" initialDetectorState
        [factAlice1] "shared corpus" none).1 := by
  intro md5hex pyHash
  refine ⟨by decide, rfl, ?_⟩
  have hk : cacheKeyContent pyHash [factBob] "shared corpus" noOptions =
      cacheKeyContent pyHash [factAlice1] "shared corpus" noOptions := rfl
  simp [detect_connections, generate_cache_key, cacheGet, cachePut, hk, simulateScorer]

/-- C2 counterexample: with eleven facts all sharing one entity, the empty
corpus and no options (so maxConnections resolves to its default 50),
detect_connections returns 55 connections, exceeding maxConnections: the
claimed bound len(connections) ≤ maxConnections is false. -/
theorem C2_connections_exceed_max_connections :
    ((none : Option DetectOptions).getD noOptions).max_connections.getD 50 = 50 ∧
    (detect_connections id (fun _ => 0) simulateScorer 0 "t" initialDetectorState
      elevenSharedFacts "" none).1.connections.length = 55 ∧
    decide ((detect_connections id (fun _ => 0) simulateScorer 0 "t" initialDetectorState
      elevenSharedFacts "" none).1.connections.length ≤ 50) = false :=
  ⟨rfl, by decide, by decide⟩

/-- C2 amended: `max_connections` is resolved from the options (default 50)
but never applied; on a cache miss the returned connections list is the
complete scorer output in insertion order, for every value of
max_connections. -/
theorem C2_no_truncation (md5hex : String → String) (pyHash : String → Int)
    (processing_time : ℚ) (start_iso : String) (st : DetectorState)
    (new_facts : List ExtractedFact) (existing_knowledge : String)
    (options : Option DetectOptions)
    (h : cacheGet st.connection_cache
      (generate_cache_key md5hex pyHash new_facts existing_knowledge
        (options.getD noOptions)) = none) :
    (detect_connections md5hex pyHash simulateScorer processing_time start_iso st
      new_facts existing_knowledge options).1.connections =
      simulate_connection_detection new_facts existing_knowledge
        ((options.getD noOptions).threshold.getD st.threshold) := by
  simp [detect_connections, h, simulateScorer]

/-- C2 witness: the amended no-truncation theorem applied to the eleven-fact
input on a fresh system. -/
theorem C2_no_truncation_witness :
    cacheGet initialDetectorState.connection_cache
      (generate_cache_key id (fun _ => 0) elevenSharedFacts ""
        ((none : Option DetectOptions).getD noOptions)) = none ∧
    (detect_connections id (fun _ => 0) simulateScorer 0 "t" initialDetectorState
      elevenSharedFacts "" none).1.connections =
      simulate_connection_detection elevenSharedFacts ""
        (((none : Option DetectOptions).getD noOptions).threshold.getD
          initialDetectorState.threshold) :=
  ⟨rfl, C2_no_truncation id (fun _ => 0) 0 "t" initialDetectorState
    elevenSharedFacts "" none rfl⟩

/-- C3 counterexample: a cache-hit call returns the cached result and
increments cached_results, but total_detections is also incremented
(it is bumped at the start of every call, before the cache lookup),
contradicting the claim that total_detections is left unchanged. -/
theorem C3_cache_hit_increments_total_detections :
    (detect_connections id (fun _ => 0) simulateScorer 0 "t2" firstDetectCall.2
      [factAlice1] "c" none).1 = firstDetectCall.1 ∧
    (detect_connections id (fun _ => 0) simulateScorer 0 "t2" firstDetectCall.2
      [factAlice1] "c" none).2.stats.cached_results =
      firstDetectCall.2.stats.cached_results + 1 ∧
    decide ((detect_connections id (fun _ => 0) simulateScorer 0 "t2" firstDetectCall.2
      [factAlice1] "c" none).2.stats.total_detections =
      firstDetectCall.2.stats.total_detections) = false :=
  ⟨rfl, rfl, by decide⟩

/-- C3 amended: on a cache hit, detect_connections returns the cached
DetectionResult unchanged and leaves the cache, connections_found,
high_relevance_connections, average_processing_time and last_detection
untouched; it increments cached_results and also total_detections (the
latter is incremented on every call before the cache lookup). -/
theorem C3_cache_hit_frame (md5hex : String → String) (pyHash : String → Int)
    (scorer : List ExtractedFact → String → ℚ → Except String (List DetectedConnection))
    (processing_time : ℚ) (start_iso : String) (st : DetectorState)
    (new_facts : List ExtractedFact) (existing_knowledge : String)
    (options : Option DetectOptions) (r : ConnectionDetectionOutput)
    (h : cacheGet st.connection_cache
      (generate_cache_key md5hex pyHash new_facts existing_knowledge
        (options.getD noOptions)) = some r) :
    detect_connections md5hex pyHash scorer processing_time start_iso st
      new_facts existing_knowledge options =
      (r, { st with stats := { st.stats with
              total_detections := st.stats.total_detections + 1,
              cached_results := st.stats.cached_results + 1 } }) := by
  simp [detect_connections, h]

/-- C3 witness: the cache-hit frame theorem applied to the state produced
by a first identical call. -/
theorem C3_cache_hit_frame_witness :
    cacheGet firstDetectCall.2.connection_cache
      (generate_cache_key id (fun _ => 0) [factAlice1] "c"
        ((none : Option DetectOptions).getD noOptions)) = some firstDetectCall.1 ∧
    detect_connections id (fun _ => 0) simulateScorer 0 "t2" firstDetectCall.2
      [factAlice1] "c" none =
      (firstDetectCall.1, { firstDetectCall.2 with stats := { firstDetectCall.2.stats with
          total_detections := firstDetectCall.2.stats.total_detections + 1,
          cached_results := firstDetectCall.2.stats.cached_results + 1 } }) :=
  ⟨rfl, C3_cache_hit_frame id (fun _ => 0) simulateScorer 0 "t2" firstDetectCall.2
    [factAlice1] "c" none firstDetectCall.1 rfl⟩

/-- C4 counterexample: with ceiling 10 a single send of 11 bytes makes the
cumulative written size exceed the ceiling, yet no rotation occurs at all
(the rotation check happens before the write, when the file is still below
the ceiling), contradicting the claim that exactly one rotation occurs
before the exceeding write. -/
theorem C4_no_rotation_on_exceeding_write :
    10 < ([11] : List Nat).sum ∧
    (file_send_seq 10 [11] initialFileChannel).backups.length = 0 ∧
    decide ((file_send_seq 10 [11] initialFileChannel).backups.length = 1) = false :=
  ⟨by decide, by decide, by decide⟩

/-- C4 amended: the size check precedes each write, so the write that makes
the cumulative size exceed the ceiling itself triggers no rotation; the
single rotation happens at the start of the next send, which renames the
full file to a backup and starts the new file with only that next event;
and a rotation failure leaves the old file in place but never prevents the
write from being attempted. -/
theorem C4_rotation_on_following_send (C : Nat) (ws : List Nat) (next : Nat)
    (hpre : ∀ i, i < ws.length → (ws.take i).sum ≤ C)
    (hexceed : C < ws.sum) :
    (file_send_seq C ws initialFileChannel).backups = []
    ∧ (file_send_seq C ws initialFileChannel).fileSize = some ws.sum
    ∧ (file_send_notification C next false (file_send_seq C ws initialFileChannel)).2 =
        { fileSize := some next, backups := [ws.sum] }
    ∧ (file_send_notification C next true (file_send_seq C ws initialFileChannel)).2 =
        { fileSize := some (ws.sum + next), backups := [] } := by
  match ws with
  | [] => exact absurd hexceed (by simp)
  | w :: rest =>
    have hstep : file_send_seq C (w :: rest) initialFileChannel =
        file_send_seq C rest { fileSize := some (0 + w), backups := [] } := by
      simp [file_send_seq, file_send_notification, rotate_if_needed, initialFileChannel]
    have hrec : ∀ i, i < rest.length → (0 + w) + (rest.take i).sum ≤ C := by
      intro i hi
      have := hpre (i + 1) (by simpa using Nat.succ_lt_succ hi)
      simpa [List.take_succ_cons, Nat.add_assoc] using this
    have hall : file_send_seq C (w :: rest) initialFileChannel =
        { fileSize := some ((w :: rest).sum), backups := [] } := by
      rw [hstep, file_send_seq_no_rotation C rest (0 + w) [] hrec]
      simp [List.sum_cons, Nat.add_assoc]
    have hx : C < w + rest.sum := by simpa using hexceed
    refine ⟨by rw [hall], by rw [hall], ?_, ?_⟩
    · rw [hall]
      simp [file_send_notification, rotate_if_needed, hx]
    · rw [hall]
      simp [file_send_notification, rotate_if_needed, hx]

/-- C4 witness: ceiling 10, two 6-byte writes (cumulative 12 exceeds the
ceiling with no rotation), then a 4-byte send that performs the single
rotation. -/
theorem C4_rotation_on_following_send_witness :
    (∀ i, i < ([6, 6] : List Nat).length → (([6, 6] : List Nat).take i).sum ≤ 10) ∧
    10 < ([6, 6] : List Nat).sum ∧
    ((file_send_seq 10 [6, 6] initialFileChannel).backups = []
      ∧ (file_send_seq 10 [6, 6] initialFileChannel).fileSize = some ([6, 6] : List Nat).sum
      ∧ (file_send_notification 10 4 false (file_send_seq 10 [6, 6] initialFileChannel)).2 =
          { fileSize := some 4, backups := [([6, 6] : List Nat).sum] }
      ∧ (file_send_notification 10 4 true (file_send_seq 10 [6, 6] initialFileChannel)).2 =
          { fileSize := some (([6, 6] : List Nat).sum + 4), backups := [] }) :=
  ⟨by decide, by decide, C4_rotation_on_following_send 10 [6, 6] 4 (by decide) (by decide)⟩

/-- C5: any exception raised while computing relations (the scorer call)
degrades the run to a DetectionResult with status failed and empty
connections and high_relevance_connections lists, never partially
populated; the embedding is total, so no exception reaches the caller. -/
theorem C5_scoring_failure_degrades_to_failed (md5hex : String → String)
    (pyHash : String → Int)
    (scorer : List ExtractedFact → String → ℚ → Except String (List DetectedConnection))
    (processing_time : ℚ) (start_iso : String) (st : DetectorState)
    (new_facts : List ExtractedFact) (existing_knowledge : String)
    (options : Option DetectOptions) (e : String)
    (hmiss : cacheGet st.connection_cache
      (generate_cache_key md5hex pyHash new_facts existing_knowledge
        (options.getD noOptions)) = none)
    (herr : scorer new_facts existing_knowledge
      ((options.getD noOptions).threshold.getD st.threshold) = Except.error e) :
    (detect_connections md5hex pyHash scorer processing_time start_iso st
      new_facts existing_knowledge options).1 =
      { connections := []
        total_connections := 0
        high_relevance_connections := []
        threshold_used := (options.getD noOptions).threshold.getD st.threshold
        processing_time := processing_time
        status := ProcessingStatus.failed } := by
  simp [detect_connections, hmiss, herr]

/-- C5 witness: a fresh system with a scorer that raises. -/
theorem C5_scoring_failure_witness :
    cacheGet initialDetectorState.connection_cache
      (generate_cache_key id (fun _ => 0) [factAlice1] "corpus"
        ((none : Option DetectOptions).getD noOptions)) = none ∧
    failScorer [factAlice1] "corpus"
      (((none : Option DetectOptions).getD noOptions).threshold.getD
        initialDetectorState.threshold) = Except.error "simulated failure" ∧
    (detect_connections id (fun _ => 0) failScorer 0 "t" initialDetectorState
      [factAlice1] "corpus" none).1 =
      { connections := []
        total_connections := 0
        high_relevance_connections := []
        threshold_used := ((none : Option DetectOptions).getD noOptions).threshold.getD
          initialDetectorState.threshold
        processing_time := 0
        status := ProcessingStatus.failed } :=
  ⟨rfl, rfl, C5_scoring_failure_degrades_to_failed id (fun _ => 0) failScorer 0 "t"
    initialDetectorState [factAlice1] "corpus" none "simulated failure" rfl rfl⟩

/-- C6: NotificationManager.send_notification returns true exactly when at
least one channel outcome is a true return; with zero channels it returns
false (the embedding is total, so nothing is thrown); and every configured
channel is attempted regardless of the other channels' outcomes. -/
theorem C6_manager_send_semantics :
    manager_send_notification [] = (false, [])
    ∧ ∀ channels : List (String × SendOutcome),
        ((manager_send_notification channels).1 = true ↔
          ∃ c ∈ channels, c.2 = SendOutcome.ok true)
        ∧ (manager_send_notification channels).2 = channels.map Prod.fst := by
  refine ⟨rfl, ?_⟩
  intro channels
  cases channels with
  | nil => simp [manager_send_notification]
  | cons c rest =>
    constructor
    · simp [manager_send_notification, channelFanout_pos_iff]
    · simp [manager_send_notification, channelFanout_names]

/-- C7 counterexample: the claim accepts any 2xx status on the third
attempt, but the code accepts only 200, 201 and 202. With network errors
on the first two attempts and HTTP 204 No Content (a 2xx status) on the
third, send_notification makes 3 attempts with backoffs 1 and 2 seconds
and returns false, not true. -/
theorem C7_2xx_not_accepted_counterexample :
    outcomes204 0 = WebhookOutcome.requestError "connection refused" ∧
    outcomes204 1 = WebhookOutcome.requestError "connection refused" ∧
    outcomes204 2 = WebhookOutcome.status 204 ∧
    (200 ≤ 204 ∧ 204 < 300) ∧
    isAcceptedStatus 204 = false ∧
    webhook_send_notification outcomes204 3 = (false, 3, [1, 2]) ∧
    decide ((webhook_send_notification outcomes204 3).1 = true) = false :=
  ⟨rfl, rfl, rfl, ⟨by decide, by decide⟩, by decide, by decide, by decide⟩

/-- C7 amended: with retries = 3, network errors on the first two attempts
and a status among the accepted codes 200, 201, 202 (not any 2xx) on the
third make send_notification return true after exactly 3 attempts, sleeping
2 to the power of the attempt index (1 then 2 seconds) after each failed
non-final attempt; and when the final attempt also fails with a network
error, send_notification returns false after exactly 3 attempts and the
same backoffs, raising nothing to the caller. -/
theorem C7_webhook_retry_then_success :
    (∀ outcomes : Nat → WebhookOutcome,
      (∃ m, outcomes 0 = WebhookOutcome.requestError m) →
      (∃ m, outcomes 1 = WebhookOutcome.requestError m) →
      (∃ code, outcomes 2 = WebhookOutcome.status code ∧ isAcceptedStatus code = true) →
      webhook_send_notification outcomes 3 = (true, 3, [1, 2])) ∧
    (∀ outcomes : Nat → WebhookOutcome,
      (∀ i, i < 3 → ∃ m, outcomes i = WebhookOutcome.requestError m) →
      webhook_send_notification outcomes 3 = (false, 3, [1, 2])) := by
  constructor
  · intro outcomes h0 h1 h2
    obtain ⟨m0, h0⟩ := h0
    obtain ⟨m1, h1⟩ := h1
    obtain ⟨code, h2, hacc⟩ := h2
    have s2 : webhookLoop outcomes 2 1 = (true, 1, []) := by
      rw [show (1 : Nat) = 0 + 1 from rfl, webhookLoop_succ, h2]
      simp [hacc]
    have s1 : webhookLoop outcomes 1 2 = (true, 2, [2]) := by
      rw [show (2 : Nat) = 1 + 1 from rfl, webhookLoop_succ, h1]
      simp [s2]
    have s0 : webhookLoop outcomes 0 3 = (true, 3, [1, 2]) := by
      rw [show (3 : Nat) = 2 + 1 from rfl, webhookLoop_succ, h0]
      simp [s1]
    exact s0
  · intro outcomes h
    obtain ⟨m0, h0⟩ := h 0 (by norm_num)
    obtain ⟨m1, h1⟩ := h 1 (by norm_num)
    obtain ⟨m2, h2⟩ := h 2 (by norm_num)
    have s2 : webhookLoop outcomes 2 1 = (false, 1, []) := by
      rw [show (1 : Nat) = 0 + 1 from rfl, webhookLoop_succ, h2]
      simp
    have s1 : webhookLoop outcomes 1 2 = (false, 2, [2]) := by
      rw [show (2 : Nat) = 1 + 1 from rfl, webhookLoop_succ, h1]
      simp [s2]
    have s0 : webhookLoop outcomes 0 3 = (false, 3, [1, 2]) := by
      rw [show (3 : Nat) = 2 + 1 from rfl, webhookLoop_succ, h0]
      simp [s1]
    exact s0

/-- C7 witness: the retry theorem applied to a server that fails twice then
returns 200, and to a server that always fails. -/
theorem C7_webhook_retry_witness :
    webhook_send_notification outcomesFailTwice 3 = (true, 3, [1, 2]) ∧
    webhook_send_notification outcomesAllFail 3 = (false, 3, [1, 2]) :=
  ⟨C7_webhook_retry_then_success.1 outcomesFailTwice
    ⟨"connection refused", rfl⟩ ⟨"connection refused", rfl⟩ ⟨200, rfl, rfl⟩,
   C7_webhook_retry_then_success.2 outcomesAllFail
    (fun _ _ => ⟨"connection refused", rfl⟩)⟩

/-- C8: for every pair of facts whose shared-entity set has size k ≥ 1 the
entity-overlap strategy emits exactly one connection, with score
min(1.0, 0.7 + 0.1 k), connection_type "factual" and evidence listing the
shared entities; a pair with no shared entity emits nothing; and the
entity-overlap phase contains exactly one connection per qualifying
unordered pair. -/
theorem C8_entity_overlap_scoring :
    (∀ f1 f2 : ExtractedFact, 1 ≤ (sharedEntities f1 f2).length →
      ∃ c, entityOverlapConnection f1 f2 = some c ∧
        c.score.score = min 1.0 (0.7 + 0.1 * ((sharedEntities f1 f2).length : ℚ)) ∧
        c.score.connection_type = "factual" ∧
        c.evidence = ["Both facts mention: " ++ pyJoin ", " (sharedEntities f1 f2)]) ∧
    (∀ f1 f2 : ExtractedFact, sharedEntities f1 f2 = [] →
      entityOverlapConnection f1 f2 = none) ∧
    (∀ new_facts : List ExtractedFact,
      (entityOverlapPhase new_facts).length =
        ((pairsOf new_facts).filter (fun p => !(sharedEntities p.1 p.2).isEmpty)).length) := by
  refine ⟨?_, ?_, ?_⟩
  · intro f1 f2 h
    have hne : sharedEntities f1 f2 ≠ [] := by
      intro heq
      rw [heq] at h
      simp at h
    unfold entityOverlapConnection
    rw [if_neg hne]
    refine ⟨_, rfl, ?_, rfl, rfl⟩
    rw [min_comm, mul_comm]
  · intro f1 f2 h
    unfold entityOverlapConnection
    rw [if_pos h]
  · intro new_facts
    rw [entityOverlapPhase, length_filterMap_eq_length_filter]
    congr 1
    apply List.filter_congr
    intro p _
    rw [entityOverlapConnection_isSome]

/-- C8 witness: the specification scenario (one shared entity "Alice",
giving score min(1.0, 0.7 + 0.1)), plus a pair with no shared entity. -/
theorem C8_entity_overlap_witness :
    (1 ≤ (sharedEntities factAlice1 factAlice2).length ∧
      ∃ c, entityOverlapConnection factAlice1 factAlice2 = some c ∧
        c.score.score = min 1.0 (0.7 + 0.1 * ((sharedEntities factAlice1 factAlice2).length : ℚ)) ∧
        c.score.connection_type = "factual" ∧
        c.evidence = ["Both facts mention: " ++ pyJoin ", " (sharedEntities factAlice1 factAlice2)]) ∧
    (sharedEntities factAlice1 factBob = [] ∧
      entityOverlapConnection factAlice1 factBob = none) :=
  ⟨⟨by decide, C8_entity_overlap_scoring.1 factAlice1 factAlice2 (by decide)⟩,
   ⟨by decide, C8_entity_overlap_scoring.2.1 factAlice1 factBob (by decide)⟩⟩

/-- C9: a fact sharing fewer than two meaningful lowercase tokens with the
corpus produces no lexical connection; sharing m ≥ 2 meaningful tokens
produces exactly one connection with score min(0.9, 0.5 + 0.05 m) and
connection_type "semantic"; and the lexical phase contains exactly one
connection per qualifying fact. -/
theorem C9_lexical_similarity_scoring :
    (∀ (fact : ExtractedFact) (existing_knowledge : String),
      (meaningfulShared fact.fact existing_knowledge).length < 2 →
      lexicalConnection fact existing_knowledge = none) ∧
    (∀ (fact : ExtractedFact) (existing_knowledge : String),
      2 ≤ (meaningfulShared fact.fact existing_knowledge).length →
      ∃ c, lexicalConnection fact existing_knowledge = some c ∧
        c.score.score =
          min 0.9 (0.5 + 0.05 * ((meaningfulShared fact.fact existing_knowledge).length : ℚ)) ∧
        c.score.connection_type = "semantic") ∧
    (∀ (new_facts : List ExtractedFact) (existing_knowledge : String),
      (lexicalPhase new_facts existing_knowledge).length =
        (new_facts.filter
          (fun f => decide (2 ≤ (meaningfulShared f.fact existing_knowledge).length))).length) := by
  refine ⟨?_, ?_, ?_⟩
  · intro fact existing_knowledge h
    unfold lexicalConnection
    rw [if_neg (Nat.not_le.mpr h)]
  · intro fact existing_knowledge h
    unfold lexicalConnection
    rw [if_pos h]
    refine ⟨_, rfl, ?_, rfl⟩
    rw [min_comm, mul_comm]
  · intro new_facts existing_knowledge
    rw [lexicalPhase, length_filterMap_eq_length_filter]
    congr 1
    apply List.filter_congr
    intro f _
    rw [lexicalConnection_isSome]

/-- C9 witness: "alpha beta gamma" against "alpha beta delta" shares the
two meaningful tokens alpha and beta; against "unrelated text" it shares
none. -/
theorem C9_lexical_similarity_witness :
    (2 ≤ (meaningfulShared factLex.fact "alpha beta delta").length ∧
      ∃ c, lexicalConnection factLex "alpha beta delta" = some c ∧
        c.score.score =
          min 0.9 (0.5 + 0.05 * ((meaningfulShared factLex.fact "alpha beta delta").length : ℚ)) ∧
        c.score.connection_type = "semantic") ∧
    ((meaningfulShared factLex.fact "unrelated text").length < 2 ∧
      lexicalConnection factLex "unrelated text" = none) :=
  ⟨⟨by decide, C9_lexical_similarity_scoring.2.1 factLex "alpha beta delta" (by decide)⟩,
   ⟨by decide, C9_lexical_similarity_scoring.1 factLex "unrelated text" (by decide)⟩⟩

/-- C10: when every POST attempt completes with a non-2xx status and no
network error, the webhook channel makes exactly `retries` attempts with no
backoff sleeps, returns false, and raises nothing. -/
theorem C10_non2xx_attempts_no_backoff (outcomes : Nat → WebhookOutcome) (retries : Nat)
    (h : ∀ i, i < retries → ∃ code, outcomes i = WebhookOutcome.status code ∧
      isAcceptedStatus code = false) :
    webhook_send_notification outcomes retries = (false, retries, []) := by
  unfold webhook_send_notification
  apply webhookLoop_all_non2xx
  intro i hi
  simpa using h i hi

/-- C10 witness: a server that always answers HTTP 500, with the default
3 retries. -/
theorem C10_non2xx_witness :
    (∀ i, i < 3 → ∃ code, outcomesAll500 i = WebhookOutcome.status code ∧
      isAcceptedStatus code = false) ∧
    webhook_send_notification outcomesAll500 3 = (false, 3, []) :=
  ⟨fun _ _ => ⟨500, rfl, rfl⟩,
   C10_non2xx_attempts_no_backoff outcomesAll500 3 (fun _ _ => ⟨500, rfl, rfl⟩)⟩

end UltimateKG
